import Mathlib

/-!
Verification of the invoice anomaly-detection core
(`app/services/anomaly_service.py`), the invoice data model
(`app/models/invoice.py`) and the parser facade
(`app/services/parser_service.py`) of the `final-project-12` repository.

Python floats are modelled as exact rationals (ℚ); Python `int(x)`
truncation and `round` (banker rounding) are modelled explicitly.
A Python `ZeroDivisionError` is modelled by the `Option` monad:
`none` means the computation raised.
-/

namespace InvoiceVerif


/-- Python `int(x)` applied to a float: truncation toward zero. -/
def pyInt (q : ℚ) : ℤ := if q < 0 then ⌈q⌉ else ⌊q⌋

/-- Python `round(x)`: round half to even (banker rounding). -/
def roundHalfEven (q : ℚ) : ℤ :=
  let f := ⌊q⌋
  let r := q - f
  if r < 1/2 then f
  else if 1/2 < r then f + 1
  else if f % 2 = 0 then f else f + 1

/-- Python `round(x, 2)`: round to two decimal places, half to even. -/
def round2 (q : ℚ) : ℚ := (roundHalfEven (q * 100) : ℚ) / 100

/-- Python `abs(x)` on floats. -/
def pyAbs (q : ℚ) : ℚ := if q < 0 then -q else q

/-- Float division as Python performs it: raises `ZeroDivisionError`
(modelled as `none`) when the divisor is zero. -/
def qdiv (a b : ℚ) : Option ℚ := if b = 0 then none else some (a / b)

/-- Model of `app/models/invoice.py` `InvoiceItem` (validated payload: name,
quantity, unit_price, total_price; floats as ℚ). -/
structure InvoiceItem where
  name : String
  quantity : ℚ
  unit_price : ℚ
  total_price : ℚ
deriving DecidableEq, Repr

/-- Model of `app/models/invoice.py` `ParsedInvoice`. `invoice_date` is modelled
as an abstract timestamp (ℤ). -/
structure ParsedInvoice where
  vendor_name : String
  invoice_number : String
  invoice_date : ℤ
  total_amount : ℚ
  items : List InvoiceItem
  currency : String := "USD"
deriving DecidableEq, Repr

/-- Model of `app/models/invoice.py` `Invoice` (the fields the anomaly engine
reads: id and parsed_data). -/
structure Invoice where
  id : String
  parsed_data : ParsedInvoice
deriving DecidableEq, Repr

/-- Model of `app/models/anomaly.py` `AnomalyType`. -/
inductive AnomalyType where
  | price_increase
  | quantity_deviation
  | new_item
  | amount_deviation
deriving DecidableEq, Repr

/-- Model of `app/models/anomaly.py` `AnomalyDetail`. The free-text
`description` string is not modelled except for the "above"/"below"
token that `_check_amount_deviation` interpolates into it, kept here
as `direction`. -/
structure AnomalyDetail where
  type : AnomalyType
  item_name : Option String := none
  severity : ℤ
  direction : Option String := none
deriving DecidableEq, Repr

/-- Model of `app/models/anomaly.py` `AnomalyResult` (the explanation string is
not modelled). -/
structure AnomalyResult where
  is_suspicious : Bool
  risk_score : ℤ
  anomalies : List AnomalyDetail
deriving DecidableEq, Repr

/-- Python `str.lower()`, defined structurally (per-character
lowercasing over the character list of the string). -/
def strLower (s : String) : String := String.mk (s.data.map Char.toLower)

/-- The per-name historical value map built by the detectors: all
values recorded under `nm` across the historical invoices, in
traversal order. -/
def historyVals (f : InvoiceItem → ℚ) (historical : List Invoice) (nm : String) : List ℚ :=
  (historical.flatMap (fun inv => inv.parsed_data.items)).filterMap
    (fun it => if it.name = nm then some (f it) else none)

/-- Average of a list of rationals (`sum(l)/len(l)`); only ever applied
to non-empty lists, matching the guards in the source. -/
def avgOf (l : List ℚ) : ℚ := l.sum / l.length

/-- Python `max(l)` on a non-empty list. -/
def listMax : List ℚ → ℚ
  | [] => 0
  | x :: xs => xs.foldl max x

/-- The per-item detector loops of the anomaly service: apply `f` to
each candidate item in order, collecting the emitted detections;
`none` from `f` (a raised `ZeroDivisionError`) aborts the whole scan. -/
def checkItems (f : InvoiceItem → Option (Option AnomalyDetail)) :
    List InvoiceItem → Option (List AnomalyDetail)
  | [] => some []
  | it :: rest =>
    match f it with
    | none => none
    | some none => checkItems f rest
    | some (some d) => (checkItems f rest).map (fun l => d :: l)

/-- Body of the loop in `AnomalyService._check_price_increases` for one
candidate item: `some none` = no detection, `some (some d)` = one
detection, `none` = ZeroDivisionError. -/
def checkPriceItem (historical : List Invoice) (it : InvoiceItem) :
    Option (Option AnomalyDetail) :=
  let prices := historyVals (fun i => i.unit_price) historical it.name
  if prices.isEmpty then some none
  else
    let avg := avgOf prices
    match qdiv (it.unit_price - avg) avg with
    | none => none
    | some r =>
      let pct := r * 100
      if 20 < pct then
        some (some { type := .price_increase, item_name := some it.name,
                     severity := min 100 (pyInt (30 + (pct - 20) * 2)) })
      else some none

/-- Embedding of `AnomalyService._check_price_increases`. -/
def check_price_increases (invoice : Invoice) (historical : List Invoice) :
    Option (List AnomalyDetail) :=
  checkItems (checkPriceItem historical) invoice.parsed_data.items

/-- Body of the loop in `AnomalyService._check_quantity_deviations` for
one candidate item. -/
def checkQtyItem (historical : List Invoice) (it : InvoiceItem) :
    Option (Option AnomalyDetail) :=
  let qs := historyVals (fun i => i.quantity) historical it.name
  if qs.isEmpty then some none
  else
    let avg := avgOf qs
    let mx := listMax qs
    if avg * 2 < it.quantity then
      match qdiv (it.quantity - avg) avg with
      | none => none
      | some r =>
        let dev := r * 100
        some (some { type := .quantity_deviation, item_name := some it.name,
                     severity := min 100 (pyInt (25 + (dev - 100) * (3/10))) })
    else if mx * (3/2) < it.quantity then
      match qdiv it.quantity mx with
      | none => none
      | some r =>
        some (some { type := .quantity_deviation, item_name := some it.name,
                     severity := min 100 (pyInt (40 + (r - 3/2) * 20)) })
    else some none

/-- Embedding of `AnomalyService._check_quantity_deviations`. -/
def check_quantity_deviations (invoice : Invoice) (historical : List Invoice) :
    Option (List AnomalyDetail) :=
  checkItems (checkQtyItem historical) invoice.parsed_data.items

/-- Body of the loop in `AnomalyService._check_new_items` for one
candidate item (divides by the total_amount of the candidate itself). -/
def checkNewItem (historical : List Invoice) (total : ℚ) (it : InvoiceItem) :
    Option (Option AnomalyDetail) :=
  let histNames :=
    (historical.flatMap (fun inv => inv.parsed_data.items)).map
      (fun i => strLower i.name)
  if histNames.contains (strLower it.name) then some none
  else
    match qdiv it.total_price total with
    | none => none
    | some r =>
      let pct := r * 100
      some (some { type := .new_item, item_name := some it.name,
                   severity := min 100 (pyInt (20 + pct * (1/2))) })

/-- Embedding of `AnomalyService._check_new_items`. -/
def check_new_items (invoice : Invoice) (historical : List Invoice) :
    Option (List AnomalyDetail) :=
  checkItems (checkNewItem historical invoice.parsed_data.total_amount)
    invoice.parsed_data.items

/-- Embedding of `AnomalyService._check_amount_deviation`: at most one detection per
invoice, carrying the "above"/"below" direction token. -/
def check_amount_deviation (invoice : Invoice) (historical : List Invoice) :
    Option (List AnomalyDetail) :=
  let amts := historical.map (fun inv => inv.parsed_data.total_amount)
  if amts.isEmpty then some []
  else
    let avg := avgOf amts
    let cur := invoice.parsed_data.total_amount
    match qdiv (cur - avg) avg with
    | none => none
    | some r =>
      let dev := pyAbs r * 100
      if 30 < dev then
        some [{ type := .amount_deviation,
                severity := min 100 (pyInt (35 + (dev - 30) * (3/2))),
                direction := some (if avg < cur then "above" else "below") }]
      else some []

/-- Embedding of `AnomalyService._calculate_risk_score`. -/
def calculate_risk_score (anomalies : List AnomalyDetail) : ℤ :=
  if anomalies.isEmpty then 0
  else
    let total : ℤ := (anomalies.map (fun a => a.severity)).sum
    let base : ℚ := (total : ℚ) / anomalies.length
    let mult : ℚ := 1 + ((anomalies.length : ℚ) - 1) * (1/10)
    min 100 (pyInt (base * mult))

/-- Embedding of `AnomalyService.analyze_invoice` (named `evaluate` in the spec): the
vendor history is passed in; the record of the candidate itself is filtered
out by id, and the empty-history fast path returns the fixed result. -/
def analyze_invoice (invoice : Invoice) (vendorHistory : List Invoice) :
    Option AnomalyResult :=
  let historical := vendorHistory.filter (fun inv => inv.id ≠ invoice.id)
  if historical.isEmpty then
    some { is_suspicious := false, risk_score := 10, anomalies := [] }
  else
    (check_price_increases invoice historical).bind fun a1 =>
    (check_quantity_deviations invoice historical).bind fun a2 =>
    (check_new_items invoice historical).bind fun a3 =>
    (check_amount_deviation invoice historical).bind fun a4 =>
    let anomalies := a1 ++ a2 ++ a3 ++ a4
    let risk := calculate_risk_score anomalies
    some { is_suspicious := decide (50 ≤ risk), risk_score := risk,
           anomalies := anomalies }

/-- Modelled from the spec: the aggregation formula as the spec words
it, with `round` (nearest integer) where the source truncates with
`int(...)`; kept for comparison against `calculate_risk_score`. -/
def specRiskScore (anomalies : List AnomalyDetail) : ℤ :=
  if anomalies.isEmpty then 0
  else
    min 100 (roundHalfEven
      ((((anomalies.map (fun a => a.severity)).sum : ℚ) / anomalies.length) *
        (1 + ((anomalies.length : ℚ) - 1) * (1/10))))

/-- A one-invoice vendor history: items "A" and "B" at unit price 100,
invoice total 200. -/
def c1hist : List Invoice :=
  [{ id := "h1",
     parsed_data :=
       { vendor_name := "V", invoice_number := "H1", invoice_date := 0,
         total_amount := 200,
         items := [{ name := "A", quantity := 1, unit_price := 100, total_price := 100 },
                   { name := "B", quantity := 1, unit_price := 100, total_price := 100 }] } }]

/-- A candidate whose items "A" and "B" are repriced at 125 and 125.5,
which triggers exactly two price-increase detections of severities 40
and 41. -/
def c1cand : Invoice :=
  { id := "c1",
    parsed_data :=
      { vendor_name := "V", invoice_number := "C1", invoice_date := 0,
        total_amount := 501/2,
        items := [{ name := "A", quantity := 1, unit_price := 125, total_price := 125 },
                  { name := "B", quantity := 1, unit_price := 251/2, total_price := 251/2 }] } }

/-- The detection list evaluate produces on `c1cand` against `c1hist`. -/
def c1anoms : List AnomalyDetail :=
  [{ type := .price_increase, item_name := some "A", severity := 40 },
   { type := .price_increase, item_name := some "B", severity := 41 }]

/-- History whose only record prices item "A" at 0, making the
price-increase division by the historical average divide by zero. -/
def divPriceHist : List Invoice :=
  [{ id := "h1",
     parsed_data :=
       { vendor_name := "V", invoice_number := "H1", invoice_date := 0,
         total_amount := 100,
         items := [{ name := "A", quantity := 1, unit_price := 0, total_price := 0 }] } }]

/-- Candidate with item "A" priced 5 against `divPriceHist`. -/
def divPriceCand : Invoice :=
  { id := "c1",
    parsed_data :=
      { vendor_name := "V", invoice_number := "C1", invoice_date := 0,
        total_amount := 100,
        items := [{ name := "A", quantity := 1, unit_price := 5, total_price := 5 }] } }

/-- History recording item "A" with quantity 0 (and a non-zero price so
the earlier price check passes), making the quantity-deviation division
by the historical average quantity divide by zero. -/
def divQtyHist : List Invoice :=
  [{ id := "h1",
     parsed_data :=
       { vendor_name := "V", invoice_number := "H1", invoice_date := 0,
         total_amount := 100,
         items := [{ name := "A", quantity := 0, unit_price := 100, total_price := 0 }] } }]

/-- Candidate with item "A", quantity 5, unit price equal to the
historical average price. -/
def divQtyCand : Invoice :=
  { id := "c1",
    parsed_data :=
      { vendor_name := "V", invoice_number := "C1", invoice_date := 0,
        total_amount := 100,
        items := [{ name := "A", quantity := 5, unit_price := 100, total_price := 500 }] } }

/-- History whose sole total_amount is 0, making the amount-deviation
division by the historical average total divide by zero. -/
def divAmtHist : List Invoice :=
  [{ id := "h1",
     parsed_data :=
       { vendor_name := "V", invoice_number := "H1", invoice_date := 0,
         total_amount := 0, items := [] } }]

/-- Item-free candidate with total 50 against `divAmtHist`. -/
def divAmtCand : Invoice :=
  { id := "c1",
    parsed_data :=
      { vendor_name := "V", invoice_number := "C1", invoice_date := 0,
        total_amount := 50, items := [] } }

/-- The price example of the spec: candidate item "A" at 125 against a
historical average of 100. -/
def priceExItem : InvoiceItem :=
  { name := "A", quantity := 1, unit_price := 125, total_price := 125 }

/-- Single-item candidate invoice around `priceExItem`. -/
def priceExCand : Invoice :=
  { id := "c2",
    parsed_data :=
      { vendor_name := "V", invoice_number := "C2", invoice_date := 0,
        total_amount := 125, items := [priceExItem] } }

/-- The quantity example of the spec: history quantities [10, 10, 10] for
item "Widget" (average 10, maximum 10). -/
def qtyExHist : List Invoice :=
  [{ id := "h1",
     parsed_data :=
       { vendor_name := "V", invoice_number := "H1", invoice_date := 0,
         total_amount := 50,
         items := [{ name := "Widget", quantity := 10, unit_price := 5, total_price := 50 }] } },
   { id := "h2",
     parsed_data :=
       { vendor_name := "V", invoice_number := "H2", invoice_date := 0,
         total_amount := 50,
         items := [{ name := "Widget", quantity := 10, unit_price := 5, total_price := 50 }] } },
   { id := "h3",
     parsed_data :=
       { vendor_name := "V", invoice_number := "H3", invoice_date := 0,
         total_amount := 50,
         items := [{ name := "Widget", quantity := 10, unit_price := 5, total_price := 50 }] } }]

/-- The amount example of the spec: a history whose total_amount averages
1000. -/
def amtExHist : List Invoice :=
  [{ id := "h1",
     parsed_data :=
       { vendor_name := "V", invoice_number := "H1", invoice_date := 0,
         total_amount := 1000, items := [] } }]

/-- Outcome of the `ParserService._parse_pdf` strategy, abstracted: it
can raise (all its internal failures are caught by the
enclosing `except` of the caller), return `None`, or return a parsed invoice. -/
inductive PdfOutcome where
  | raises
  | returnsNone
  | returnsInvoice (inv : ParsedInvoice)
deriving DecidableEq, Repr

/-- Embedding of `ParserService._mock_parse`: the synthetic fallback invoice.
`uuid8` abstracts `str(uuid.uuid4())[:8]` and `now` abstracts
`datetime.now()`. -/
def mock_parse (uuid8 : String) (now : ℤ) : ParsedInvoice :=
  { vendor_name := "ABC Supplies Co.",
    invoice_number := "INV-" ++ uuid8,
    invoice_date := now,
    total_amount := 1250,
    items :=
      [{ name := "Item 1", quantity := 5, unit_price := 150, total_price := 750 },
       { name := "Item 2", quantity := 10, unit_price := 50, total_price := 500 }],
    currency := "USD" }

/-- Embedding of `ParserService.parse_invoice` (named `extract` in the spec): try the PDF
strategy only for `.pdf` filenames, treat a raised exception or a
`None` result as a miss, and otherwise fall back to `_mock_parse`.
The outer `except ParsingError` branch is reachable only if
`_mock_parse` raised, which it cannot. -/
def parse_invoice (isPdfFilename : Bool) (pdfResult : PdfOutcome)
    (uuid8 : String) (now : ℤ) : Except String ParsedInvoice :=
  if isPdfFilename then
    match pdfResult with
    | PdfOutcome.returnsInvoice inv => Except.ok inv
    | _ => Except.ok (mock_parse uuid8 now)
  else Except.ok (mock_parse uuid8 now)

/-- A Python value as it may appear in the structured JSON payload:
string, number, boolean, or None. -/
inductive PyVal where
  | pstr (s : String)
  | pnum (q : ℚ)
  | pbool (b : Bool)
  | pnone
deriving DecidableEq, Repr

/-- Python `float(x)`: numbers pass through, strings parse via the
abstract float grammar `sf`, booleans convert to 1/0, `None` raises
TypeError (`none`). -/
def pyFloat (sf : String → Option ℚ) : PyVal → Option ℚ
  | PyVal.pnum q => some q
  | PyVal.pstr s => sf s
  | PyVal.pbool b => some (if b then 1 else 0)
  | PyVal.pnone => none

/-- pydantic-v2 lax coercion to `float` (the repository uses pydantic
v2, see `Invoice.model_validate`): numbers and numeric strings are
accepted, booleans and `None` are rejected. -/
def pydFloat (sf : String → Option ℚ) : PyVal → Option ℚ
  | PyVal.pnum q => some q
  | PyVal.pstr s => sf s
  | PyVal.pbool _ => none
  | PyVal.pnone => none

/-- Python falsiness (`not data[...]`). -/
def pyFalsy : PyVal → Bool
  | PyVal.pnum q => decide (q = 0)
  | PyVal.pstr s => decide (s = "")
  | PyVal.pbool b => !b
  | PyVal.pnone => true

/-- The keyword arguments handed to `InvoiceItem(**data)`: each field
may be absent (`none`) or bound to an arbitrary Python value. -/
structure ItemData where
  name : Option PyVal := none
  quantity : Option PyVal := none
  unit_price : Option PyVal := none
  total_price : Option PyVal := none
deriving DecidableEq, Repr

/-- The quantity clamping in `InvoiceItem.__init__`: `float(quantity)`
with negatives clamped to 0 and conversion failures replaced by 0. -/
def clampQty (sf : String → Option ℚ) (v : PyVal) : ℚ :=
  match pyFloat sf v with
  | some q => if q < 0 then 0 else q
  | none => 0

/-- The data-dict rewriting performed by `InvoiceItem.__init__` before
pydantic validation: clamp the quantity, then derive a missing or
falsy total_price as round(qty × unit_price, 2) when both quantity and
unit_price are present and convert (`except: pass` otherwise). -/
def itemInit (sf : String → Option ℚ) (d : ItemData) : ItemData :=
  let d1 :=
    match d.quantity with
    | none => d
    | some v => { d with quantity := some (PyVal.pnum (clampQty sf v)) }
  match d1.quantity, d1.unit_price with
  | some qv, some pv =>
    match pyFloat sf qv, pyFloat sf pv with
    | some q, some p =>
      if d1.total_price.all pyFalsy then
        { d1 with total_price := some (PyVal.pnum (round2 (q * p))) }
      else d1
    | _, _ => d1
  | _, _ => d1

/-- Construction `InvoiceItem(**data)` including pydantic validation: all four
fields must be present, the name a string and the numeric fields
float-coercible, else construction raises (`none`). -/
def mkInvoiceItem (sf : String → Option ℚ) (d : ItemData) : Option InvoiceItem :=
  let e := itemInit sf d
  match e.name, e.quantity, e.unit_price, e.total_price with
  | some nv, some qv, some pv, some tv =>
    match nv, pydFloat sf qv, pydFloat sf pv, pydFloat sf tv with
    | PyVal.pstr nm, some q, some p, some t =>
      some { name := nm, quantity := q, unit_price := p, total_price := t }
    | _, _, _, _ => none
  | _, _, _, _ => none

/-- The `calculated_total` accessor of `InvoiceItem`. -/
def InvoiceItem.calculated_total (it : InvoiceItem) : ℚ :=
  round2 (it.quantity * it.unit_price)

/-- A float grammar accepting no strings (enough for the witnesses). -/
def c10sf : String → Option ℚ := fun _ => none

/-- Keyword arguments with a negative quantity and no total_price. -/
def c10d : ItemData :=
  { name := some (PyVal.pstr "W"), quantity := some (PyVal.pnum (-2)),
    unit_price := some (PyVal.pnum 5), total_price := none }

/-- The item `InvoiceItem(**c10d)` constructs: quantity clamped to 0,
total derived as round(0×5, 2) = 0. -/
def c10item : InvoiceItem :=
  { name := "W", quantity := 0, unit_price := 5, total_price := 0 }

/-- The structured payload handed to
`ParserService.parse_invoice_from_json`: each key may be absent or
bound to a Python value; `items`, when present, is a list of
keyword-argument dicts. -/
structure JsonInvoiceData where
  vendor_name : Option PyVal := none
  invoice_number : Option PyVal := none
  invoice_date : Option PyVal := none
  total_amount : Option PyVal := none
  currency : Option PyVal := none
  items : Option (List ItemData) := none

/-- The `[InvoiceItem(**item) for item in invoice_data.get("items", [])]`
comprehension: the first failing item aborts with the caught
exception. -/
def convertItems (sf : String → Option ℚ) :
    List ItemData → Except String (List InvoiceItem)
  | [] => Except.ok []
  | d :: ds =>
    match mkInvoiceItem sf d with
    | none => Except.error "InvalidInvoiceFormatError"
    | some i =>
      match convertItems sf ds with
      | Except.error e => Except.error e
      | Except.ok l => Except.ok (i :: l)

/-- Embedding of `ParserService.parse_invoice_from_json`: build the items, look up
the four required keys (KeyError when absent), parse the date with
`datetime.fromisoformat` (abstracted by `iso`; TypeError on non-string,
ValueError on an unparsable string), then validate the ParsedInvoice
(string fields must be strings, the total must coerce to float). All
these exceptions are caught and re-raised as
`InvalidInvoiceFormatError` (`Except.error`). -/
def parse_invoice_from_json (sf : String → Option ℚ) (iso : String → Option ℤ)
    (d : JsonInvoiceData) : Except String ParsedInvoice :=
  match convertItems sf (d.items.getD []) with
  | Except.error e => Except.error e
  | Except.ok items =>
    match d.vendor_name, d.invoice_number, d.invoice_date, d.total_amount with
    | some v, some n, some dt, some ta =>
      match dt with
      | PyVal.pstr ds =>
        match iso ds with
        | some date =>
          match v, n, pydFloat sf ta, d.currency.getD (PyVal.pstr "USD") with
          | PyVal.pstr vs, PyVal.pstr ns, some taq, PyVal.pstr cs =>
            Except.ok { vendor_name := vs, invoice_number := ns,
                        invoice_date := date, total_amount := taq,
                        items := items, currency := cs }
          | _, _, _, _ => Except.error "InvalidInvoiceFormatError"
        | none => Except.error "InvalidInvoiceFormatError"
      | _ => Except.error "InvalidInvoiceFormatError"
    | _, _, _, _ => Except.error "InvalidInvoiceFormatError"

/-- Whether the call returned normally. -/
def exceptOk : Except String ParsedInvoice → Bool
  | Except.ok _ => true
  | Except.error _ => false

/-- Modelled from the spec: "the required fields {vendor_name,
invoice_number, invoice_date, total_amount} are present and
well-typed" — strings for the names, an ISO-parsable string for the
date, a float-coercible value for the total. -/
def requiredFieldsOk (sf : String → Option ℚ) (iso : String → Option ℤ)
    (d : JsonInvoiceData) : Bool :=
  (match d.vendor_name with | some (PyVal.pstr _) => true | _ => false) &&
  (match d.invoice_number with | some (PyVal.pstr _) => true | _ => false) &&
  (match d.invoice_date with
   | some (PyVal.pstr s) => (iso s).isSome
   | _ => false) &&
  (match d.total_amount with
   | some v => (pydFloat sf v).isSome
   | _ => false)

/-- Every entry of the items array constructs successfully. -/
def itemsOk (sf : String → Option ℚ) (d : JsonInvoiceData) : Bool :=
  (d.items.getD []).all (fun it => (mkInvoiceItem sf it).isSome)

/-- The optional currency, when present, is a string. -/
def currencyOk (d : JsonInvoiceData) : Bool :=
  match d.currency.getD (PyVal.pstr "USD") with
  | PyVal.pstr _ => true
  | _ => false

/-- ISO-date grammar recognizing exactly "2024-01-01". -/
def c9iso : String → Option ℤ :=
  fun s => if s = "2024-01-01" then some 20240101 else none

/-- Structured input whose four required fields are all present and
well-typed but whose single items entry has a `None` unit_price, which
fails InvoiceItem validation. -/
def c9bad : JsonInvoiceData :=
  { vendor_name := some (PyVal.pstr "V"),
    invoice_number := some (PyVal.pstr "N1"),
    invoice_date := some (PyVal.pstr "2024-01-01"),
    total_amount := some (PyVal.pnum 100),
    currency := none,
    items := some [{ name := some (PyVal.pstr "x"),
                     quantity := some (PyVal.pnum 1),
                     unit_price := some PyVal.pnone,
                     total_price := some (PyVal.pnum 5) }] }

/-- C2: evaluate on an empty vendor history returns the fixed
first-invoice result and runs no detector. -/
theorem c2_empty_history (invoice : Invoice) :
    analyze_invoice invoice [] =
      some { is_suspicious := false, risk_score := 10, anomalies := [] } := by
  rfl

/-- C1 counterexample: on this non-empty detection list produced by
evaluate, the returned risk_score is 44 (the source truncates with
`int(40.5 × 1.1) = int(44.55)`), while the claimed formula
min(100, round(mean × (1 + 0.1×(count−1)))) gives round(44.55) = 45. -/
theorem c1_risk_rounding_counterexample :
    analyze_invoice c1cand c1hist =
      some { is_suspicious := false, risk_score := 44, anomalies := c1anoms } ∧
    c1anoms ≠ [] ∧ specRiskScore c1anoms = 45 := by
  refine ⟨?_, by simp [c1anoms], ?_⟩
  · norm_num +decide [analyze_invoice, c1cand, c1hist, c1anoms, check_price_increases,
      check_quantity_deviations, check_new_items, check_amount_deviation,
      checkItems, checkPriceItem, checkQtyItem, checkNewItem, historyVals,
      avgOf, listMax, qdiv, strLower, calculate_risk_score, pyInt, pyAbs,
      roundHalfEven, List.filterMap_cons, List.filterMap_nil, List.sum_cons,
      List.sum_nil]
  · norm_num [specRiskScore, c1anoms, roundHalfEven]

/-- C7: each of the three unguarded divisions by a historical average
can actually fire on a non-empty vendor history — evaluate ends in a
`ZeroDivisionError` (`none`) instead of an `AnomalyResult`: with every
recorded unit price 0 (price detector), every recorded quantity 0
(quantity detector), and every recorded total_amount 0 (amount
detector). -/
theorem c7_division_by_zero_faults :
    (divPriceHist ≠ [] ∧ analyze_invoice divPriceCand divPriceHist = none) ∧
    (divQtyHist ≠ [] ∧ analyze_invoice divQtyCand divQtyHist = none) ∧
    (divAmtHist ≠ [] ∧ analyze_invoice divAmtCand divAmtHist = none) := by
  refine ⟨⟨by simp [divPriceHist], ?_⟩, ⟨by simp [divQtyHist], ?_⟩,
    ⟨by simp [divAmtHist], ?_⟩⟩ <;>
    norm_num +decide [analyze_invoice, divPriceHist, divPriceCand, divQtyHist,
      divQtyCand, divAmtHist, divAmtCand, check_price_increases,
      check_quantity_deviations, check_new_items, check_amount_deviation,
      checkItems, checkPriceItem, checkQtyItem, checkNewItem, historyVals,
      avgOf, listMax, qdiv, strLower, calculate_risk_score, pyInt, pyAbs,
      roundHalfEven, List.filterMap_cons, List.filterMap_nil, List.sum_cons,
      List.sum_nil]

/-- C6 counterexample: extending the detection list
[severity 100] by one further detection of severity 25 (a severity the
quantity detector can emit) drops the aggregate risk score from 100 to
int(62.5 × 1.1) = 68, so the claimed monotonicity fails. -/
theorem c6_monotonicity_counterexample :
    calculate_risk_score
        ([{ type := .price_increase, item_name := some "a", severity := 100 }] ++
          [{ type := .quantity_deviation, item_name := some "b", severity := 25 }]) <
      calculate_risk_score
        [{ type := .price_increase, item_name := some "a", severity := 100 }] := by
  norm_num [calculate_risk_score, pyInt]

/-- C3: for a candidate item whose name occurs in the vendor history
(and whose historical average price is non-zero, so the division
returns), the price detector emits a detection exactly when the
unit price of the item exceeds the historical average by more than 20%, and
then with severity min(100, int(30 + (pct−20)×2)). -/
theorem c3_price_increase_detector (historical : List Invoice) (it : InvoiceItem)
    (hmem : historyVals (fun i => i.unit_price) historical it.name ≠ [])
    (havg : avgOf (historyVals (fun i => i.unit_price) historical it.name) ≠ 0) :
    checkPriceItem historical it =
      some
        (let avg := avgOf (historyVals (fun i => i.unit_price) historical it.name)
         let pct := (it.unit_price - avg) / avg * 100
         if 20 < pct then
           some { type := .price_increase, item_name := some it.name,
                  severity := min 100 (pyInt (30 + (pct - 20) * 2)) }
         else none) := by
  unfold checkPriceItem
  rw [if_neg (by simpa [List.isEmpty_iff] using hmem)]
  simp only [qdiv, if_neg havg]
  split_ifs <;> rfl

/-- C4: for a candidate item whose name occurs in the vendor history
(with non-zero historical average and maximum quantity, so the
divisions return), the quantity detector emits at most one detection,
the 2×-average branch taking precedence over the 1.5×-maximum branch,
with the severities min(100, int(25 + (pctAboveAvg−100)×0.3)) and
min(100, int(40 + (qty/max − 1.5)×20)) respectively. -/
theorem c4_quantity_deviation_detector (historical : List Invoice) (it : InvoiceItem)
    (hmem : historyVals (fun i => i.quantity) historical it.name ≠ [])
    (havg : avgOf (historyVals (fun i => i.quantity) historical it.name) ≠ 0)
    (hmax : listMax (historyVals (fun i => i.quantity) historical it.name) ≠ 0) :
    checkQtyItem historical it =
      some
        (let qs := historyVals (fun i => i.quantity) historical it.name
         let avg := avgOf qs
         let mx := listMax qs
         if avg * 2 < it.quantity then
           some { type := .quantity_deviation, item_name := some it.name,
                  severity :=
                    min 100 (pyInt (25 + ((it.quantity - avg) / avg * 100 - 100) * (3/10))) }
         else if mx * (3/2) < it.quantity then
           some { type := .quantity_deviation, item_name := some it.name,
                  severity := min 100 (pyInt (40 + (it.quantity / mx - 3/2) * 20)) }
         else none) := by
  unfold checkQtyItem
  rw [if_neg (by simpa [List.isEmpty_iff] using hmem)]
  simp only [qdiv, if_neg havg, if_neg hmax]
  split_ifs <;> rfl

/-- C5: on a non-empty vendor history with non-zero average total, the
amount detector emits exactly one invoice-level detection precisely
when the absolute percent deviation of the candidate total from the
historical average exceeds 30, with severity
min(100, int(35 + (pct−30)×1.5)) and direction "above" when the
candidate total exceeds the average, "below" otherwise. -/
theorem c5_amount_deviation_detector (invoice : Invoice) (historical : List Invoice)
    (hne : historical ≠ [])
    (havg : avgOf (historical.map (fun inv => inv.parsed_data.total_amount)) ≠ 0) :
    check_amount_deviation invoice historical =
      some
        (let amts := historical.map (fun inv => inv.parsed_data.total_amount)
         let avg := avgOf amts
         let cur := invoice.parsed_data.total_amount
         let dev := pyAbs ((cur - avg) / avg) * 100
         if 30 < dev then
           [{ type := .amount_deviation,
              severity := min 100 (pyInt (35 + (dev - 30) * (3/2))),
              direction := some (if avg < cur then "above" else "below") }]
         else []) := by
  unfold check_amount_deviation
  rw [if_neg (by simp [List.isEmpty_iff, hne])]
  simp only [qdiv, if_neg havg]
  split_ifs <;> rfl

theorem pyInt_eq_floor (q : ℚ) (h : 0 ≤ q) : pyInt q = ⌊q⌋ :=
  if_neg (not_lt.mpr h)

theorem pyInt_nonneg (q : ℚ) (h : 0 ≤ q) : 0 ≤ pyInt q := by
  rw [pyInt_eq_floor q h]
  exact Int.floor_nonneg.mpr h

theorem pyInt_mono {q r : ℚ} (h : q ≤ r) : pyInt q ≤ pyInt r := by
  unfold pyInt
  rcases lt_or_le q 0 with h1 | h1 <;> rcases lt_or_le r 0 with h2 | h2
  · rw [if_pos h1, if_pos h2]
    exact Int.ceil_mono h
  · rw [if_pos h1, if_neg (not_lt.mpr h2)]
    exact le_trans (Int.ceil_le.mpr (by exact_mod_cast h1.le)) (Int.floor_nonneg.mpr h2)
  · exact absurd (lt_of_le_of_lt h h2) (not_lt.mpr h1)
  · rw [if_neg (not_lt.mpr h1), if_neg (not_lt.mpr h2)]
    exact Int.floor_mono h

theorem pyInt_intCast (z : ℤ) : pyInt (z : ℚ) = z := by
  unfold pyInt
  split_ifs <;> simp

/-- Core inequality behind the guarded monotonicity of the risk score:
growing the detection count from n to n+1 with a new severity at least
the current mean does not decrease mean × multiplier. -/
theorem riskBaseMono (S s : ℤ) (n : ℕ) (hn : 1 ≤ n) (hS : 0 ≤ S) (hs : 0 ≤ s)
    (h : S ≤ s * n) :
    (S : ℚ) / (n : ℚ) * (1 + ((n : ℚ) - 1) * (1/10)) ≤
      ((S + s : ℤ) : ℚ) / (((n : ℚ) + 1)) * (1 + (((n : ℚ) + 1) - 1) * (1/10)) := by
  have hn0 : (0:ℚ) < n := by exact_mod_cast hn
  have hS' : (0:ℚ) ≤ (S:ℚ) := by exact_mod_cast hS
  have hs' : (0:ℚ) ≤ (s:ℚ) := by exact_mod_cast hs
  have h' : (S:ℚ) ≤ (s:ℚ) * (n:ℚ) := by exact_mod_cast h
  have hn1 : (1:ℚ) ≤ (n:ℚ) := by exact_mod_cast hn
  have hdiv : (S:ℚ)/(n:ℚ) ≤ ((S:ℚ) + (s:ℚ))/((n:ℚ) + 1) := by
    rw [div_le_div_iff₀ hn0 (by linarith)]
    nlinarith
  have hmult : (1 + ((n:ℚ) - 1) * (1/10)) ≤ 1 + (((n:ℚ) + 1) - 1) * (1/10) := by linarith
  have hm0 : (0:ℚ) ≤ 1 + ((n:ℚ) - 1) * (1/10) := by linarith
  have hB0 : (0:ℚ) ≤ ((S:ℚ) + (s:ℚ))/((n:ℚ) + 1) := by positivity
  have := mul_le_mul hdiv hmult hm0 hB0
  push_cast
  convert this using 2

/-- C6 (amended): for severities in the range the AnomalyDetail model
admits (≥ 0), the risk score always lies in [0, 100], and appending one
more detection does not decrease it provided the new detection's
severity is at least the mean severity of the existing list. -/
theorem c6_amended_risk_bounds_and_mono (l : List AnomalyDetail) (d : AnomalyDetail)
    (hsev : ∀ x ∈ l, 0 ≤ x.severity) (hd0 : 0 ≤ d.severity)
    (hmean : (l.map (fun a => a.severity)).sum ≤ d.severity * l.length) :
    calculate_risk_score l ≤ calculate_risk_score (l ++ [d]) ∧
      0 ≤ calculate_risk_score l ∧ calculate_risk_score l ≤ 100 := by
  have hS : 0 ≤ (l.map (fun a => a.severity)).sum := by
    apply List.sum_nonneg
    intro x hx
    obtain ⟨a, ha, rfl⟩ := List.mem_map.mp hx
    exact hsev a ha
  refine ⟨?_, ?_, ?_⟩
  · cases l with
    | nil =>
      simp only [List.nil_append, calculate_risk_score, List.isEmpty_nil,
        List.isEmpty_cons, List.map_cons, List.map_nil, List.sum_cons,
        List.sum_nil, List.length_cons, List.length_nil]
      norm_num
      rw [pyInt_intCast]
      exact hd0
    | cons a l' =>
      simp only [calculate_risk_score, List.cons_append, List.isEmpty_cons,
        Bool.false_eq_true, if_false, List.map_cons, List.map_append,
        List.map_nil, List.sum_cons, List.sum_append, List.sum_nil,
        List.length_cons, List.length_append, List.length_nil]
      apply min_le_min (le_refl 100)
      apply pyInt_mono
      have hn : 1 ≤ l'.length + 1 := Nat.succ_le_succ (Nat.zero_le _)
      have := riskBaseMono (a.severity + (l'.map (fun a => a.severity)).sum)
        d.severity (l'.length + 1) hn
        (by simpa using hS) hd0
        (by simpa [List.length_cons, mul_comm] using hmean)
      push_cast at this ⊢
      convert this using 2
      ring
  · cases l with
    | nil => simp [calculate_risk_score]
    | cons a l' =>
      simp only [calculate_risk_score, List.isEmpty_cons, Bool.false_eq_true,
        if_false]
      refine le_min (by norm_num) (pyInt_nonneg _ ?_)
      apply mul_nonneg
      · apply div_nonneg
        · exact_mod_cast hS
        · positivity
      · have h1 : (1:ℚ) ≤ ((a :: l').length : ℚ) := by
          exact_mod_cast Nat.succ_le_succ (Nat.zero_le l'.length)
        linarith
  · cases l with
    | nil => simp [calculate_risk_score]
    | cons a l' =>
      simp only [calculate_risk_score, List.isEmpty_cons, Bool.false_eq_true,
        if_false]
      exact min_le_left _ _

theorem calculate_risk_score_eq (l : List AnomalyDetail) (h : l ≠ []) :
    calculate_risk_score l =
      min 100 (pyInt (((((l.map (fun a => a.severity)).sum : ℤ) : ℚ) / l.length) *
        (1 + ((l.length : ℚ) - 1) * (1/10)))) := by
  rw [calculate_risk_score, if_neg (by simpa [List.isEmpty_iff] using h)]

/-- C1 (amended): whenever evaluate returns a result on a non-empty
vendor history, its risk_score equals
min(100, int(mean(severities) × (1 + 0.1×(count−1)))) — `int`
truncation, not rounding to nearest — over the detections it reports;
risk_score is 0 when it reports no detections; and is_suspicious holds
exactly when risk_score ≥ 50. -/
theorem c1_amended_risk_aggregation (cand : Invoice) (hist : List Invoice)
    (res : AnomalyResult)
    (hne : hist.filter (fun inv => inv.id ≠ cand.id) ≠ [])
    (h : analyze_invoice cand hist = some res) :
    (res.anomalies ≠ [] →
      res.risk_score =
        min 100 (pyInt (((((res.anomalies.map (fun a => a.severity)).sum : ℤ) : ℚ) /
            res.anomalies.length) *
          (1 + ((res.anomalies.length : ℚ) - 1) * (1/10))))) ∧
    (res.anomalies = [] → res.risk_score = 0) ∧
    (res.is_suspicious = true ↔ 50 ≤ res.risk_score) := by
  simp only [analyze_invoice] at h
  rw [if_neg (by simpa [List.isEmpty_iff] using hne)] at h
  simp only [Option.bind_eq_some, Option.some.injEq] at h
  obtain ⟨a1, h1, a2, h2, a3, h3, a4, h4, hres⟩ := h
  subst hres
  refine ⟨fun hne2 => ?_, fun h0 => ?_, ?_⟩
  · exact calculate_risk_score_eq _ hne2
  · have h0a : a1 ++ a2 ++ a3 ++ a4 = [] := h0
    show calculate_risk_score (a1 ++ a2 ++ a3 ++ a4) = 0
    rw [h0a]
    rfl
  · simp [decide_eq_true_iff]

/-- Witness for C1 (amended) at the two-detection example `c1cand`
against `c1hist` (severities 40 and 41, risk score 44). -/
theorem c1_amended_witness :
    (c1anoms ≠ [] →
      (44 : ℤ) =
        min 100 (pyInt (((((c1anoms.map (fun a => a.severity)).sum : ℤ) : ℚ) /
            c1anoms.length) *
          (1 + ((c1anoms.length : ℚ) - 1) * (1/10))))) ∧
    (c1anoms = [] → (44 : ℤ) = 0) ∧
    ((false = true) ↔ (50 : ℤ) ≤ 44) :=
  c1_amended_risk_aggregation c1cand c1hist
    { is_suspicious := false, risk_score := 44, anomalies := c1anoms }
    (by decide)
    (by norm_num +decide [analyze_invoice, c1cand, c1hist, c1anoms,
      check_price_increases, check_quantity_deviations, check_new_items,
      check_amount_deviation, checkItems, checkPriceItem, checkQtyItem,
      checkNewItem, historyVals, avgOf, listMax, qdiv, strLower,
      calculate_risk_score, pyInt, pyAbs, roundHalfEven, List.filterMap_cons,
      List.filterMap_nil, List.sum_cons, List.sum_nil])

/-- Witness for C3: 125 against average 100 (25% increase) yields one
price_increase detection of severity min(100, 30+5×2) = 40, both at the
single-item level and through the whole detector. -/
theorem c3_witness :
    checkPriceItem c1hist priceExItem =
      some (some { type := .price_increase, item_name := some "A", severity := 40 }) ∧
    check_price_increases priceExCand c1hist =
      some [{ type := .price_increase, item_name := some "A", severity := 40 }] := by
  have h := c3_price_increase_detector c1hist priceExItem (by decide)
    (by norm_num +decide [avgOf, historyVals, c1hist, priceExItem,
      List.filterMap_cons, List.filterMap_nil, List.sum_cons, List.sum_nil])
  constructor
  · rw [h]
    norm_num +decide [avgOf, historyVals, c1hist, priceExItem, pyInt,
      List.filterMap_cons, List.filterMap_nil, List.sum_cons, List.sum_nil]
  · norm_num +decide [check_price_increases, checkItems, checkPriceItem,
      priceExCand, priceExItem, c1hist, historyVals, avgOf, qdiv, pyInt,
      List.filterMap_cons, List.filterMap_nil, List.sum_cons, List.sum_nil]

/-- Witness for C4: against quantities [10,10,10], quantity 25 takes
the average branch (25 > 20) with severity min(100, 25+(150−100)×0.3)
= 40, while quantity 16 (≤ 20 but > 1.5×10) takes the maximum branch
with severity min(100, 40+(1.6−1.5)×20) = 42. -/
theorem c4_witness :
    checkQtyItem qtyExHist
        { name := "Widget", quantity := 25, unit_price := 5, total_price := 125 } =
      some (some { type := .quantity_deviation, item_name := some "Widget", severity := 40 }) ∧
    checkQtyItem qtyExHist
        { name := "Widget", quantity := 16, unit_price := 5, total_price := 80 } =
      some (some { type := .quantity_deviation, item_name := some "Widget", severity := 42 }) := by
  constructor
  · have h := c4_quantity_deviation_detector qtyExHist
      { name := "Widget", quantity := 25, unit_price := 5, total_price := 125 }
      (by decide)
      (by norm_num +decide [avgOf, historyVals, qtyExHist, List.filterMap_cons,
        List.filterMap_nil, List.sum_cons, List.sum_nil])
      (by norm_num +decide [listMax, historyVals, qtyExHist, List.filterMap_cons,
        List.filterMap_nil])
    rw [h]
    norm_num +decide [avgOf, listMax, historyVals, qtyExHist, pyInt,
      List.filterMap_cons, List.filterMap_nil, List.sum_cons, List.sum_nil]
  · have h := c4_quantity_deviation_detector qtyExHist
      { name := "Widget", quantity := 16, unit_price := 5, total_price := 80 }
      (by decide)
      (by norm_num +decide [avgOf, historyVals, qtyExHist, List.filterMap_cons,
        List.filterMap_nil, List.sum_cons, List.sum_nil])
      (by norm_num +decide [listMax, historyVals, qtyExHist, List.filterMap_cons,
        List.filterMap_nil])
    rw [h]
    norm_num +decide [avgOf, listMax, historyVals, qtyExHist, pyInt,
      List.filterMap_cons, List.filterMap_nil, List.sum_cons, List.sum_nil]

/-- Witness for C5: against an average total of 1000, a candidate
total of 500 yields one "below" detection (severity 65), 1600 yields
one "above" detection (severity 80), and 1100 (10% deviation) yields
none. -/
theorem c5_witness :
    check_amount_deviation
        { id := "c1",
          parsed_data :=
            { vendor_name := "V", invoice_number := "C1", invoice_date := 0,
              total_amount := 500, items := [] } } amtExHist =
      some [{ type := .amount_deviation, severity := 65, direction := some "below" }] ∧
    check_amount_deviation
        { id := "c2",
          parsed_data :=
            { vendor_name := "V", invoice_number := "C2", invoice_date := 0,
              total_amount := 1600, items := [] } } amtExHist =
      some [{ type := .amount_deviation, severity := 80, direction := some "above" }] ∧
    check_amount_deviation
        { id := "c3",
          parsed_data :=
            { vendor_name := "V", invoice_number := "C3", invoice_date := 0,
              total_amount := 1100, items := [] } } amtExHist =
      some [] := by
  have havg : avgOf (amtExHist.map (fun inv => inv.parsed_data.total_amount)) ≠ 0 := by
    norm_num [avgOf, amtExHist]
  refine ⟨?_, ?_, ?_⟩ <;>
    [rw [c5_amount_deviation_detector _ amtExHist (by decide) havg];
     rw [c5_amount_deviation_detector _ amtExHist (by decide) havg];
     rw [c5_amount_deviation_detector _ amtExHist (by decide) havg]] <;>
    norm_num [avgOf, amtExHist, pyAbs, pyInt]

/-- Witness for C6 (amended) at the list [severity 40] extended by a
severity-60 detection: risk goes 40 → 55 and stays within [0, 100]. -/
theorem c6_witness :
    calculate_risk_score
        [{ type := .price_increase, item_name := some "a", severity := 40 }] ≤
      calculate_risk_score
        ([{ type := .price_increase, item_name := some "a", severity := 40 }] ++
          [{ type := .amount_deviation, severity := 60 }]) ∧
    0 ≤ calculate_risk_score
        [{ type := .price_increase, item_name := some "a", severity := 40 }] ∧
    calculate_risk_score
        [{ type := .price_increase, item_name := some "a", severity := 40 }] ≤ 100 :=
  c6_amended_risk_bounds_and_mono _ _ (by decide) (by decide) (by decide)

/-- C8: extraction is total — whatever the filename and the outcome
of the PDF strategy (including raising), `parse_invoice` returns an
invoice and never errors, and whenever the PDF strategy does not
produce an invoice the result is the deterministic fallback with its
fixed vendor, generated number, supplied timestamp, two fixed line
items and fixed total. -/
theorem c8_parse_total (isPdfFilename : Bool) (pdfResult : PdfOutcome)
    (uuid8 : String) (now : ℤ) :
    (∃ inv, parse_invoice isPdfFilename pdfResult uuid8 now = Except.ok inv) ∧
    ((∀ inv, pdfResult ≠ PdfOutcome.returnsInvoice inv) →
      parse_invoice isPdfFilename pdfResult uuid8 now =
        Except.ok (mock_parse uuid8 now)) ∧
    (mock_parse uuid8 now).vendor_name = "ABC Supplies Co." ∧
    (mock_parse uuid8 now).invoice_number = "INV-" ++ uuid8 ∧
    (mock_parse uuid8 now).invoice_date = now ∧
    (mock_parse uuid8 now).total_amount = 1250 ∧
    (mock_parse uuid8 now).items =
      [{ name := "Item 1", quantity := 5, unit_price := 150, total_price := 750 },
       { name := "Item 2", quantity := 10, unit_price := 50, total_price := 500 }] := by
  refine ⟨?_, ?_, rfl, rfl, rfl, rfl, rfl⟩
  · cases isPdfFilename <;> cases pdfResult <;>
      exact ⟨_, rfl⟩
  · intro hno
    cases isPdfFilename <;> cases pdfResult <;> first
      | rfl
      | exact absurd rfl (hno _)

/-- Witness for C8 at a raising PDF strategy on a `.pdf` filename:
the call succeeds with exactly the fallback invoice. -/
theorem c8_witness :
    parse_invoice true PdfOutcome.raises "deadbeef" 7 =
      Except.ok (mock_parse "deadbeef" 7) ∧
    (mock_parse "deadbeef" 7).vendor_name = "ABC Supplies Co." ∧
    (mock_parse "deadbeef" 7).invoice_number = "INV-" ++ "deadbeef" ∧
    (mock_parse "deadbeef" 7).total_amount = 1250 :=
  ⟨(c8_parse_total true PdfOutcome.raises "deadbeef" 7).2.1
      (fun _ h => PdfOutcome.noConfusion h),
   (c8_parse_total true PdfOutcome.raises "deadbeef" 7).2.2.1,
   (c8_parse_total true PdfOutcome.raises "deadbeef" 7).2.2.2.1,
   (c8_parse_total true PdfOutcome.raises "deadbeef" 7).2.2.2.2.2.1⟩

theorem pyFloat_pnum (sf : String → Option ℚ) (q : ℚ) :
    pyFloat sf (PyVal.pnum q) = some q := rfl

theorem pydFloat_pnum (sf : String → Option ℚ) (q : ℚ) :
    pydFloat sf (PyVal.pnum q) = some q := rfl

theorem itemInit_quantity (sf : String → Option ℚ) (d : ItemData) (v : PyVal)
    (hv : d.quantity = some v) :
    (itemInit sf d).quantity = some (PyVal.pnum (clampQty sf v)) := by
  cases hp : d.unit_price with
  | none => simp [itemInit, hv, hp]
  | some pv =>
    cases hf : pyFloat sf pv with
    | none => simp [itemInit, hv, hp, hf, pyFloat_pnum]
    | some p =>
      by_cases ht : d.total_price.all pyFalsy <;>
        simp [itemInit, hv, hp, hf, ht, pyFloat_pnum]

theorem itemInit_unit_price (sf : String → Option ℚ) (d : ItemData) :
    (itemInit sf d).unit_price = d.unit_price := by
  cases hv : d.quantity with
  | none => simp [itemInit, hv]
  | some v =>
    cases hp : d.unit_price with
    | none => simp [itemInit, hv, hp]
    | some pv =>
      cases hf : pyFloat sf pv with
      | none => simp [itemInit, hv, hp, hf, pyFloat_pnum]
      | some p =>
        by_cases ht : d.total_price.all pyFalsy <;>
          simp [itemInit, hv, hp, hf, ht, pyFloat_pnum]

theorem pydFloat_none_of_pyFloat_none (sf : String → Option ℚ) (v : PyVal)
    (h : pyFloat sf v = none) : pydFloat sf v = none := by
  cases v <;> simp_all [pyFloat, pydFloat]

theorem pydFloat_of_pyFloat_some (sf : String → Option ℚ) (v : PyVal) (p : ℚ)
    (h : pyFloat sf v = some p) :
    pydFloat sf v = some p ∨ pydFloat sf v = none := by
  cases v <;> simp_all [pyFloat, pydFloat]

theorem itemInit_eq (sf : String → Option ℚ) (d : ItemData) (v pv : PyVal) (p : ℚ)
    (hv : d.quantity = some v) (hp : d.unit_price = some pv)
    (hf : pyFloat sf pv = some p) (ht : d.total_price.all pyFalsy = true) :
    itemInit sf d =
      { d with quantity := some (PyVal.pnum (clampQty sf v)),
               total_price := some (PyVal.pnum (round2 (clampQty sf v * p))) } := by
  simp [itemInit, hv, hp, hf, ht, pyFloat_pnum]

theorem mkItem_quantity (sf : String → Option ℚ) (d : ItemData) (it : InvoiceItem)
    (v : PyVal) (hv : d.quantity = some v) (hc : mkInvoiceItem sf d = some it) :
    it.quantity = clampQty sf v := by
  simp only [mkInvoiceItem, itemInit_quantity sf d v hv] at hc
  cases hn : (itemInit sf d).name with
  | none => rw [hn] at hc; simp at hc
  | some nv =>
    rw [hn] at hc
    cases hp : (itemInit sf d).unit_price with
    | none => rw [hp] at hc; simp at hc
    | some pv =>
      rw [hp] at hc
      cases ht : (itemInit sf d).total_price with
      | none => rw [ht] at hc; simp at hc
      | some tv =>
        rw [ht] at hc
        cases nv with
        | pstr nm =>
          cases hpp : pydFloat sf pv with
          | none => simp [pydFloat_pnum, hpp] at hc
          | some p =>
            cases htt : pydFloat sf tv with
            | none => simp [pydFloat_pnum, hpp, htt] at hc
            | some t =>
              simp only [pydFloat_pnum, hpp, htt, Option.some.injEq] at hc
              rw [← hc]
        | pnum q => simp [pydFloat_pnum] at hc
        | pbool b => simp [pydFloat_pnum] at hc
        | pnone => simp [pydFloat_pnum] at hc

theorem mkItem_total (sf : String → Option ℚ) (d : ItemData) (it : InvoiceItem)
    (v pv : PyVal) (hv : d.quantity = some v) (hp : d.unit_price = some pv)
    (ht : d.total_price.all pyFalsy = true) (hc : mkInvoiceItem sf d = some it) :
    it.total_price = round2 (it.quantity * it.unit_price) := by
  cases hf : pyFloat sf pv with
  | none =>
    have hpd : pydFloat sf pv = none := pydFloat_none_of_pyFloat_none sf pv hf
    simp only [mkInvoiceItem, itemInit_unit_price, hp] at hc
    cases hn : (itemInit sf d).name with
    | none => rw [hn] at hc; simp at hc
    | some nv =>
      rw [hn] at hc
      cases hq : (itemInit sf d).quantity with
      | none => rw [hq] at hc; simp at hc
      | some qv =>
        rw [hq] at hc
        cases htp : (itemInit sf d).total_price with
        | none => rw [htp] at hc; simp at hc
        | some tv =>
          rw [htp] at hc
          cases nv <;> simp [hpd] at hc
  | some p =>
    have he := itemInit_eq sf d v pv p hv hp hf ht
    simp only [mkInvoiceItem, he, hp] at hc
    cases hn : d.name with
    | none => rw [hn] at hc; simp at hc
    | some nv =>
      rw [hn] at hc
      cases nv with
      | pstr nm =>
        rcases pydFloat_of_pyFloat_some sf pv p hf with hpd | hpd
        · simp only [pydFloat_pnum, hpd, Option.some.injEq] at hc
          rw [← hc]
        · simp [pydFloat_pnum, hpd] at hc
      | pnum q => simp [pydFloat_pnum] at hc
      | pbool b => simp [pydFloat_pnum] at hc
      | pnone => simp [pydFloat_pnum] at hc

/-- C10: for every InvoiceItem whose construction succeeds: (i) when
quantity and unit_price were both passed and total_price was missing
or falsy, the stored total_price equals round(quantity×unit_price, 2);
(ii) a passed quantity that is negative or fails float conversion is
stored as 0; (iii) the calculated_total accessor always equals
round(quantity×unit_price, 2) over the stored fields. -/
theorem c10_item_construction (sf : String → Option ℚ) (d : ItemData)
    (it : InvoiceItem) (hc : mkInvoiceItem sf d = some it) :
    (d.quantity.isSome = true → d.unit_price.isSome = true →
      d.total_price.all pyFalsy = true →
      it.total_price = round2 (it.quantity * it.unit_price)) ∧
    (∀ v, d.quantity = some v →
      ((pyFloat sf v = none → it.quantity = 0) ∧
       (∀ q, pyFloat sf v = some q → q < 0 → it.quantity = 0))) ∧
    it.calculated_total = round2 (it.quantity * it.unit_price) := by
  refine ⟨?_, ?_, rfl⟩
  · intro hq hp ht
    obtain ⟨v, hv⟩ := Option.isSome_iff_exists.mp hq
    obtain ⟨pv, hpv⟩ := Option.isSome_iff_exists.mp hp
    exact mkItem_total sf d it v pv hv hpv ht hc
  · intro v hv
    have hqv := mkItem_quantity sf d it v hv hc
    constructor
    · intro hnone
      rw [hqv]
      simp [clampQty, hnone]
    · intro q hq hneg
      rw [hqv]
      simp [clampQty, hq, hneg]

/-- Witness for C10 at `c10d`: the construction succeeds and yields
`c10item`, and the three conclusions hold there. -/
theorem c10_witness :
    (c10d.quantity.isSome = true → c10d.unit_price.isSome = true →
      c10d.total_price.all pyFalsy = true →
      c10item.total_price = round2 (c10item.quantity * c10item.unit_price)) ∧
    (∀ v, c10d.quantity = some v →
      ((pyFloat c10sf v = none → c10item.quantity = 0) ∧
       (∀ q, pyFloat c10sf v = some q → q < 0 → c10item.quantity = 0))) ∧
    c10item.calculated_total = round2 (c10item.quantity * c10item.unit_price) :=
  c10_item_construction c10sf c10d c10item
    (by norm_num [mkInvoiceItem, itemInit, clampQty, c10sf, c10d, c10item,
      pyFloat, pydFloat, pyFalsy, round2, roundHalfEven])

theorem convertItems_isOk (sf : String → Option ℚ) (l : List ItemData) :
    (match convertItems sf l with
     | Except.ok _ => true
     | Except.error _ => false) =
      l.all (fun it => (mkInvoiceItem sf it).isSome) := by
  induction l with
  | nil => rfl
  | cons d ds ih =>
    simp only [convertItems, List.all_cons]
    cases hm : mkInvoiceItem sf d with
    | none => simp
    | some i =>
      cases hcv : convertItems sf ds with
      | error e => rw [hcv] at ih; simp [← ih]
      | ok l2 => rw [hcv] at ih; simp [← ih]

/-- C9 (amended): the structured parser returns normally exactly when
the four required fields are present and well-typed AND every items
entry passes InvoiceItem validation AND the currency, when given, is a
string; otherwise it raises InvalidInvoiceFormatError. -/
theorem c9_amended_structured_parse (sf : String → Option ℚ)
    (iso : String → Option ℤ) (d : JsonInvoiceData) :
    exceptOk (parse_invoice_from_json sf iso d) =
      (requiredFieldsOk sf iso d && itemsOk sf d && currencyOk d) := by
  unfold parse_invoice_from_json requiredFieldsOk itemsOk currencyOk exceptOk
  have hconv := convertItems_isOk sf (d.items.getD [])
  cases hcv : convertItems sf (d.items.getD []) with
  | error e =>
    rw [hcv] at hconv
    simp only at hconv
    rw [← hconv]
    simp
  | ok items =>
    rw [hcv] at hconv
    simp only at hconv
    rw [← hconv]
    rcases hv : d.vendor_name with _ | v
    · simp
    · rcases hn : d.invoice_number with _ | n
      · cases v <;> simp
      · rcases hdt : d.invoice_date with _ | dt
        · cases v <;> cases n <;> simp
        · rcases hta : d.total_amount with _ | ta
          · cases v <;> cases n <;> cases dt <;> simp
          · cases dt with
            | pstr s =>
              cases hiso : iso s with
              | none => cases v <;> cases n <;> simp [hiso]
              | some date =>
                cases hpd : pydFloat sf ta with
                | none => cases v <;> cases n <;> simp [hiso, hpd]
                | some taq =>
                  cases hcu : d.currency with
                  | none => cases v <;> cases n <;> simp [hiso, hpd, hcu]
                  | some c =>
                    cases c <;> cases v <;> cases n <;> simp [hiso, hpd, hcu]
            | pnum q => cases v <;> cases n <;> simp
            | pbool b => cases v <;> cases n <;> simp
            | pnone => cases v <;> cases n <;> simp

/-- C9 counterexample: on `c9bad` every required field is present and
well-typed, yet parseStructured raises InvalidInvoiceFormatError
because the items entry is malformed — refuting "raises exactly when a
required field is missing or mistyped". -/
theorem c9_counterexample :
    requiredFieldsOk c10sf c9iso c9bad = true ∧
    exceptOk (parse_invoice_from_json c10sf c9iso c9bad) = false := by
  constructor
  · decide
  · decide


end InvoiceVerif
